import Mathlib

/-!
Shallow embedding of the key-value store drafts in this repository
(kv_pair.py, the DynamoDB draft, and kv_pair2.py, the multi-backend
draft), together with theorems settling the specification claims.

Keys and values are opaque strings.  Python dictionaries are modelled as
association lists in insertion order (assignment replaces in place or
appends at the end, exactly as a CPython dict does).  Python exceptions
become an explicit error type; an operation that can both mutate state
and raise returns a pair of the post state and an `Except` result, since
state changes made before an exception persist.
-/

set_option autoImplicit false

abbrev Key := String

abbrev Value := String

/-- Python exception classes raised by the embedded code.  Note that the
source defines no NotConnected error anywhere; the constructors below
are exactly the exceptions the drafts can raise. -/
inductive PyError where
  | valueError
  | keyError
  | notImplementedError
  | assertionError
  | attributeError
  | typeError
  | duplicateKeyError
  deriving Repr, DecidableEq

/-- Lookup in an association list, as a CPython dict lookup (first and
only binding for a key, since assignments keep keys unique). -/
def alookup {β : Type} : List (Key × β) → Key → Option β
  | [], _ => none
  | (k, v) :: rest, key => if k = key then some v else alookup rest key

/-- CPython dict assignment d[key] = val: replace in place when the key
is present, otherwise append at the end. -/
def aset {β : Type} : List (Key × β) → Key → β → List (Key × β)
  | [], key, val => [(key, val)]
  | (k, v) :: rest, key, val =>
      if k = key then (key, val) :: rest else (k, v) :: aset rest key val

/-- CPython del d[key] / a single-document removal: drop the binding
for the key when present. -/
def adel {β : Type} : List (Key × β) → Key → List (Key × β)
  | [], _ => []
  | (k, v) :: rest, key => if k = key then rest else (k, v) :: adel rest key

/-- State of kv_pair2.BackendDict: the python dict self.dict plus the
self.connected lifecycle flag. -/
structure BackendDict where
  dict : List (Key × Value)
  connected : Bool
  deriving Repr, DecidableEq

namespace BackendDict

/-- BackendDict.__init__ with no pre-existing shelf file: an empty dict,
connected set to True. -/
def init : BackendDict := { dict := [], connected := true }

/-- BackendDict.create (kv_pair2.py lines 189-193): raises ValueError
when the key is already in the dict; otherwise the body ends without
inserting anything, so the store is returned unchanged. -/
def create (b : BackendDict) (key : Key) (value : Value) :
    BackendDict × Except PyError Unit :=
  match alookup b.dict key with
  | some _ => (b, Except.error PyError.valueError)
  | none => (b, Except.ok ())

/-- BackendDict.read (kv_pair2.py lines 195-197): unconditionally raises
NotImplementedError. -/
def read (b : BackendDict) (key : Key) : Except PyError Value :=
  Except.error PyError.notImplementedError

/-- BackendDict.update (kv_pair2.py lines 199-210): unconditionally
raises NotImplementedError. -/
def update (b : BackendDict) (key : Key) (value : Value) :
    BackendDict × Except PyError Unit :=
  (b, Except.error PyError.notImplementedError)

/-- BackendDict.delete (kv_pair2.py lines 212-213): unconditionally
raises NotImplementedError. -/
def delete (b : BackendDict) (key : Key) : BackendDict × Except PyError Unit :=
  (b, Except.error PyError.notImplementedError)

/-- BackendDict.disconnect (kv_pair2.py lines 218-220): sets
self.connected = False and then raises NotImplementedError; the flag
assignment persists. -/
def disconnect (b : BackendDict) : BackendDict × Except PyError Unit :=
  ({ b with connected := false }, Except.error PyError.notImplementedError)

end BackendDict

/-- State of kv_pair2.BackendMongo: the collection is a list of
documents, each holding an _id field (the key, unique across the
collection) and a value field, plus the connected flag set by the
abstract base constructor. -/
structure BackendMongo where
  coll : List (Key × Value)
  connected : Bool
  deriving Repr, DecidableEq

namespace BackendMongo

/-- BackendMongo.create (kv_pair2.py lines 332-342): insert_one of the
document with _id = key; mongod rejects a duplicate _id with
DuplicateKeyError, otherwise the document is appended. -/
def create (b : BackendMongo) (key : Key) (value : Value) :
    BackendMongo × Except PyError Unit :=
  match alookup b.coll key with
  | some _ => (b, Except.error PyError.duplicateKeyError)
  | none => ({ b with coll := b.coll ++ [(key, value)] }, Except.ok ())

/-- BackendMongo.read (kv_pair2.py lines 344-361): find on _id = key,
then concatenate the value fields of all matches starting from the
empty string.  With no match the loop body never runs and the empty
string is returned: the function never raises for an absent key. -/
def read (b : BackendMongo) (key : Key) : Except PyError Value :=
  Except.ok ((b.coll.filter (fun d => d.1 == key)).foldl
    (fun r d => r ++ d.2) "")

/-- BackendMongo.update (kv_pair2.py lines 363-393): update_one on the
filter _id = key with upsert=False, then assert matched_count == 1 and
modified_count == 1.  With no match nothing changes and the first
assertion fails; with a match whose stored value already equals the new
value, mongod reports modified_count == 0 and the second assertion
fails after the write. -/
def update (b : BackendMongo) (key : Key) (value : Value) :
    BackendMongo × Except PyError Unit :=
  match alookup b.coll key with
  | none => (b, Except.error PyError.assertionError)
  | some old =>
      if old = value then
        ({ b with coll := aset b.coll key value },
         Except.error PyError.assertionError)
      else
        ({ b with coll := aset b.coll key value }, Except.ok ())

/-- BackendMongo.delete (kv_pair2.py lines 395-402): delete_one on
_id = key; removing an absent key is not an error. -/
def delete (b : BackendMongo) (key : Key) : BackendMongo × Except PyError Unit :=
  ({ b with coll := adel b.coll key }, Except.ok ())

/-- BackendMongo.disconnect (kv_pair2.py lines 404-422): pymongo
Database defines a catch-all attribute access that turns any
non-underscore name into a Collection, so hasattr(self.db_obj, "close")
is True, and a Collection defines a call operator (the dir(coll)
transcript at the bottom of kv_pair2.py lists it), so
callable(self.db_obj.close) is True as well; that call operator only
raises TypeError.  The method therefore raises TypeError at
self.db_obj.close() before reaching the flag assignment on line 414 or
self.client.close() on line 421: the state is unchanged, the connected
flag stays True and the client is never closed. -/
def disconnect (b : BackendMongo) : BackendMongo × Except PyError Unit :=
  (b, Except.error PyError.typeError)

end BackendMongo

/-- The backend selector enumeration of kv_pair2.py. -/
inductive Backends where
  | DICT
  | DYNAMO_DB
  | MONGODB
  | MYSQL
  | SHELVES
  | SQLLIGHT
  | TEXTFILE
  deriving Repr, DecidableEq

/-- State of the facade class kv_pair2.Backend: the selector tag, the
data reachable through self.db_con (for DICT a python dict; for MONGODB
the collection held by the BackendMongo object), the gold shadow dict,
and the connected flag. -/
structure Backend where
  backend : Backends
  db_con : List (Key × Value)
  gold : List (Key × Value)
  connected : Bool
  deriving Repr, DecidableEq

namespace Backend

/-- Backend.create (kv_pair2.py lines 462-492).  DICT: plain dict
assignment, which silently overwrites an existing key (the docstring
says so).  MONGODB: the code calls self.db_con.insert_one, but db_con
is a BackendMongo object which has no insert_one method, so Python
raises AttributeError.  All other selectors raise NotImplementedError. -/
def create (b : Backend) (ckey : Key) (cvalue : Value) :
    Backend × Except PyError Unit :=
  match b.backend with
  | Backends.DICT => ({ b with db_con := aset b.db_con ckey cvalue }, Except.ok ())
  | Backends.MONGODB => (b, Except.error PyError.attributeError)
  | _ => (b, Except.error PyError.notImplementedError)

/-- Backend.read (kv_pair2.py lines 494-518).  DICT: dict subscript,
raising KeyError when the key is absent.  MONGODB: the code calls
self.db_con.find_one, which a BackendMongo object does not have, so
AttributeError.  All other selectors raise NotImplementedError. -/
def read (b : Backend) (rkey : Key) : Except PyError Value :=
  match b.backend with
  | Backends.DICT =>
      match alookup b.db_con rkey with
      | some v => Except.ok v
      | none => Except.error PyError.keyError
  | Backends.MONGODB => Except.error PyError.attributeError
  | _ => Except.error PyError.notImplementedError

/-- Backend.update1 (kv_pair2.py lines 520-555).  DICT: dict
assignment, which inserts when the key is absent (an upsert).
MONGODB: the branch body is the single statement pass, a silent no-op
that returns successfully.  All other selectors raise
NotImplementedError. -/
def update1 (b : Backend) (ukey : Key) (uvalue : Value) :
    Backend × Except PyError Unit :=
  match b.backend with
  | Backends.DICT => ({ b with db_con := aset b.db_con ukey uvalue }, Except.ok ())
  | Backends.MONGODB => (b, Except.ok ())
  | _ => (b, Except.error PyError.notImplementedError)

/-- Backend.delete (kv_pair2.py lines 557-584).  DICT: the statement
del self.db_con[d_key], which raises KeyError when the key is absent
(although the docstring promises to just return).  MONGODB: the code
calls self.db_con.clear, which a BackendMongo object does not have, so
AttributeError.  All other selectors raise NotImplementedError. -/
def delete (b : Backend) (dkey : Key) : Backend × Except PyError Unit :=
  match b.backend with
  | Backends.DICT =>
      match alookup b.db_con dkey with
      | some _ => ({ b with db_con := adel b.db_con dkey }, Except.ok ())
      | none => (b, Except.error PyError.keyError)
  | Backends.MONGODB => (b, Except.error PyError.attributeError)
  | _ => (b, Except.error PyError.notImplementedError)

end Backend

/-- State of the DynamoDB table of kv_pair.py: items keyed by the hash
key, where the value attribute of an item can be None (the draft
explicitly handles that case), hence Option Value. -/
structure DynamoTable where
  items : List (Key × Option Value)
  deriving Repr, DecidableEq

namespace KvPair

/-- get (kv_pair.py lines 42-57): get_item raising ItemNotFound gives
(None, 403); an item whose value attribute is None also gives
(None, 403); otherwise the value with 200. -/
def get (t : DynamoTable) (key : Key) : Option Value × Nat :=
  match alookup t.items key with
  | none => (none, 403)
  | some none => (none, 403)
  | some (some v) => (some v, 200)

/-- post (kv_pair.py lines 60-68): put_item with the default
overwrite=False raises ConditionalCheckFailedException when an item
with that key exists, giving 403; otherwise the pair is stored and 200
is returned. -/
def post (t : DynamoTable) (key : Key) (value : Value) : DynamoTable × Nat :=
  match alookup t.items key with
  | some _ => (t, 403)
  | none => ({ items := t.items ++ [(key, some value)] }, 200)

/-- delete (kv_pair.py lines 70-79): for a non-empty key, delete_item
is unconditional and idempotent, returning 200 whether or not the item
existed; the trailing irregularly dedented return 400 is read as the
else arm of the length test, so the empty key returns 400.  The
ConditionalCheckFailedException arm is unreachable for an unconditional
delete_item. -/
def delete (t : DynamoTable) (key : Key) : DynamoTable × Nat :=
  if key.length > 0 then ({ items := adel t.items key }, 200) else (t, 400)

/-- put (kv_pair.py lines 81-101): an absent key gives 403, and so
does an item whose value attribute is None; otherwise the value is
replaced and 200 returned.  The JSONResponseError arm giving 500
depends on the remote service misbehaving, not on the table state, and
is not modelled. -/
def put (t : DynamoTable) (key : Key) (new_value : Value) : DynamoTable × Nat :=
  match alookup t.items key with
  | none => (t, 403)
  | some none => (t, 403)
  | some (some _) => ({ items := aset t.items key (some new_value) }, 200)

end KvPair

/-! ## Helper lemmas -/

/-- Dict assignment followed by lookup of the same key yields the
assigned value. -/
theorem alookup_aset_self {β : Type} (l : List (Key × β)) (k : Key) (v : β) :
    alookup (aset l k v) k = some v := by
  induction l with
  | nil => simp [aset, alookup]
  | cons hd tl ih =>
      obtain ⟨k1, v1⟩ := hd
      by_cases h : k1 = k
      · simp [aset, alookup, h]
      · simp [aset, alookup, h, ih]

/-! ## Claim theorems -/

/-- Claim C1 (code bug evidence).  The claim says that for an absent
key, create(k, v) succeeds and an immediately following read(k)
returns v.  On BackendDict, create("k", "v") on the empty store
returns successfully, yet the store is still empty afterwards (the
method body only checks for duplicates and never inserts), and
read("k") raises NotImplementedError instead of returning "v". -/
theorem c1_backendDict_create_inserts_nothing :
    (BackendDict.init.create "k" "v").2 = Except.ok () ∧
    (BackendDict.init.create "k" "v").1.dict = [] ∧
    (BackendDict.init.create "k" "v").1.read "k" =
      Except.error PyError.notImplementedError :=
  ⟨rfl, rfl, rfl⟩

/-- Claim C2 (code bug evidence).  The claim says delete(k) succeeds
whether or not k is present.  On the facade with the DICT backend,
deleting the absent key "k" raises KeyError, and after one successful
delete the second delete of the same key raises KeyError as well, so
delete is not idempotent. -/
theorem c2_delete_raises_keyerror_on_absent_key :
    ((({ backend := Backends.DICT, db_con := [], gold := [],
         connected := true } : Backend).delete "k").2 =
       Except.error PyError.keyError) ∧
    ((({ backend := Backends.DICT, db_con := [("k", "v")], gold := [],
         connected := true } : Backend).delete "k").2 = Except.ok ()) ∧
    (((({ backend := Backends.DICT, db_con := [("k", "v")], gold := [],
          connected := true } : Backend).delete "k").1.delete "k").2 =
       Except.error PyError.keyError) :=
  ⟨rfl, rfl, rfl⟩

/-- Claim C3 counterexample.  The claim says that when k is bound to v,
create(k, v2) fails with AlreadyExists and the stored value remains v.
On the facade with the DICT backend holding "k" bound to "v", the call
create("k", "v2") returns successfully and a following read("k")
returns "v2": the duplicate create neither fails nor preserves the
value. -/
theorem c3_counterexample :
    ((({ backend := Backends.DICT, db_con := [("k", "v")], gold := [],
         connected := true } : Backend).create "k" "v2").2 = Except.ok ()) ∧
    ((({ backend := Backends.DICT, db_con := [("k", "v")], gold := [],
         connected := true } : Backend).create "k" "v2").1.read "k" =
       Except.ok "v2") :=
  ⟨rfl, rfl⟩

/-- Claim C3 as amended.  For a key k already bound to v:
BackendDict.create(k, v2) fails with ValueError leaving the store
unchanged, and the DynamoDB post(k, v2) returns 403 leaving the stored
value v readable; but the facade Backend.create on the DICT backend
silently overwrites, succeeding and making a following read return
v2. -/
theorem c3_amended (k : Key) (v v2 : Value) (st : List (Key × Value))
    (ts : List (Key × Option Value))
    (hst : alookup st k = some v) (hts : alookup ts k = some (some v)) :
    ((({ dict := st, connected := true } : BackendDict).create k v2).2 =
       Except.error PyError.valueError) ∧
    ((({ dict := st, connected := true } : BackendDict).create k v2).1 =
       { dict := st, connected := true }) ∧
    (KvPair.post { items := ts } k v2 = ({ items := ts }, 403)) ∧
    (KvPair.get { items := ts } k = (some v, 200)) ∧
    ((({ backend := Backends.DICT, db_con := st, gold := [],
         connected := true } : Backend).create k v2).2 = Except.ok ()) ∧
    ((({ backend := Backends.DICT, db_con := st, gold := [],
         connected := true } : Backend).create k v2).1.read k =
       Except.ok v2) := by
  refine ⟨?_, ?_, ?_, ?_, ?_, ?_⟩
  · simp [BackendDict.create, hst]
  · simp [BackendDict.create, hst]
  · simp [KvPair.post, hts]
  · simp [KvPair.get, hts]
  · simp [Backend.create]
  · simp [Backend.create, Backend.read, alookup_aset_self]

/-- Claim C3 witness: the amended statement at the concrete store with
"k" bound to "v", creating "k" with "w". -/
theorem c3_amended_witness :
    ((({ dict := [("k", "v")], connected := true } : BackendDict).create
        "k" "w").2 = Except.error PyError.valueError) ∧
    ((({ dict := [("k", "v")], connected := true } : BackendDict).create
        "k" "w").1 = { dict := [("k", "v")], connected := true }) ∧
    (KvPair.post { items := [("k", some "v")] } "k" "w" =
       ({ items := [("k", some "v")] }, 403)) ∧
    (KvPair.get { items := [("k", some "v")] } "k" = (some "v", 200)) ∧
    ((({ backend := Backends.DICT, db_con := [("k", "v")], gold := [],
         connected := true } : Backend).create "k" "w").2 = Except.ok ()) ∧
    ((({ backend := Backends.DICT, db_con := [("k", "v")], gold := [],
         connected := true } : Backend).create "k" "w").1.read "k" =
       Except.ok "w") :=
  c3_amended "k" "v" "w" [("k", "v")] [("k", some "v")] rfl rfl

/-- Claim C4 counterexample.  The claim says update(k, v) on an absent
key fails with NotFound and does not create a record.  On the facade
with the DICT backend and an empty store, update1("k", "v") returns
successfully and afterwards the store holds the new record
("k", "v"): the update neither failed nor left existence unchanged. -/
theorem c4_counterexample :
    ((({ backend := Backends.DICT, db_con := [], gold := [],
         connected := true } : Backend).update1 "k" "v").2 = Except.ok ()) ∧
    ((({ backend := Backends.DICT, db_con := [], gold := [],
         connected := true } : Backend).update1 "k" "v").1.db_con =
       [("k", "v")]) :=
  ⟨rfl, rfl⟩

/-- Claim C4 as amended.  For a key k absent from the store:
BackendMongo.update(k, v) fails (the assertion on matched_count) and,
because upsert is False, leaves the collection unchanged; but the
facade Backend.update1 on the DICT backend upserts: it returns
successfully and creates the record, so the key exists afterwards. -/
theorem c4_amended (k : Key) (v : Value) (m : BackendMongo)
    (st : List (Key × Value))
    (hm : alookup m.coll k = none) (hst : alookup st k = none) :
    (m.update k v = (m, Except.error PyError.assertionError)) ∧
    ((({ backend := Backends.DICT, db_con := st, gold := [],
         connected := true } : Backend).update1 k v).2 = Except.ok ()) ∧
    (alookup ((({ backend := Backends.DICT, db_con := st, gold := [],
                  connected := true } : Backend).update1 k v).1.db_con) k =
       some v) := by
  refine ⟨?_, ?_, ?_⟩
  · simp [BackendMongo.update, hm]
  · simp [Backend.update1]
  · simp [Backend.update1, alookup_aset_self]

/-- Claim C4 witness: the amended statement at the empty Mongo
collection and the empty DICT store, with key "k" and value "v". -/
theorem c4_amended_witness :
    (({ coll := [], connected := true } : BackendMongo).update "k" "v" =
       ({ coll := [], connected := true },
        Except.error PyError.assertionError)) ∧
    ((({ backend := Backends.DICT, db_con := [], gold := [],
         connected := true } : Backend).update1 "k" "v").2 = Except.ok ()) ∧
    (alookup ((({ backend := Backends.DICT, db_con := [], gold := [],
                  connected := true } : Backend).update1 "k" "v").1.db_con)
       "k" = some "v") :=
  c4_amended "k" "v" { coll := [], connected := true } [] rfl rfl

/-- Claim C5 (code bug evidence).  The claim says read(k) on an absent
key fails with NotFound and never silently returns a default or empty
value.  BackendMongo.read of the key "k" returns the empty string
without any error, both on the empty collection and on a collection
holding only the unrelated key "a"; the test
test_read_non_existent_keys in test_kv_pair2.py expects an exception
here. -/
theorem c5_mongo_read_returns_empty_on_absent :
    (({ coll := [], connected := true } : BackendMongo).read "k" =
       Except.ok "") ∧
    (({ coll := [("a", "x")], connected := true } : BackendMongo).read "k" =
       Except.ok "") :=
  ⟨rfl, rfl⟩

/-- Claim C6 (code bug evidence).  The claim says update(k, v2) on a
present key succeeds and a following read returns v2.  On the facade
with the MONGODB backend holding "k" bound to "v", update1("k", "w")
returns successfully while leaving the whole state untouched (the
MONGODB branch is the single statement pass), so no later read can
observe "w". -/
theorem c6_update1_mongodb_is_silent_noop :
    ({ backend := Backends.MONGODB, db_con := [("k", "v")], gold := [],
       connected := true } : Backend).update1 "k" "w" =
      ({ backend := Backends.MONGODB, db_con := [("k", "v")], gold := [],
         connected := true }, Except.ok ()) :=
  rfl

/-- Claim C7 (code bug evidence).  The claim says no operation other
than delete on a missing key is a silent no-op.  Two silent no-ops
besides delete: BackendDict.create("a", "x") on the empty store
returns successfully yet changes nothing (the pair is never inserted),
and the facade update1("a", "y") under the MONGODB backend returns
successfully yet changes nothing. -/
theorem c7_silent_noops_exist :
    (({ dict := [], connected := true } : BackendDict).create "a" "x" =
       ({ dict := [], connected := true }, Except.ok ())) ∧
    (({ backend := Backends.MONGODB, db_con := [("a", "x")], gold := [],
        connected := true } : Backend).update1 "a" "y" =
       ({ backend := Backends.MONGODB, db_con := [("a", "x")], gold := [],
          connected := true }, Except.ok ())) :=
  ⟨rfl, rfl⟩

/-- Claim C8 counterexample.  The claim says that after disconnect()
every subsequent operation fails with NotConnected.  After
BackendDict.disconnect on the fresh store the connected flag is indeed
false, yet create("k", "v") on the resulting handle returns
successfully rather than failing. -/
theorem c8_counterexample :
    (BackendDict.init.disconnect.1.connected = false) ∧
    ((BackendDict.init.disconnect.1.create "k" "v").2 = Except.ok ()) :=
  ⟨rfl, rfl⟩

/-- Claim C8 as amended.  BackendDict.disconnect sets the connected
flag to False and then raises NotImplementedError; no operation
consults the flag, so create, read, update and delete return exactly
the same results after a disconnect as before it, and nothing ever
fails with a NotConnected error (no such error exists in the code).
BackendMongo.disconnect raises TypeError at self.db_obj.close() and
so leaves its state untouched, the connected flag still True and the
client open. -/
theorem c8_amended (b : BackendDict) (m : BackendMongo) (k : Key) (v : Value) :
    (b.disconnect = ({ dict := b.dict, connected := false },
       Except.error PyError.notImplementedError)) ∧
    ((b.disconnect.1.create k v).2 = (b.create k v).2) ∧
    (b.disconnect.1.read k = b.read k) ∧
    ((b.disconnect.1.update k v).2 = (b.update k v).2) ∧
    ((b.disconnect.1.delete k).2 = (b.delete k).2) ∧
    (m.disconnect = (m, Except.error PyError.typeError)) := by
  refine ⟨rfl, ?_, rfl, rfl, rfl, rfl⟩
  cases h : alookup b.dict k <;>
    simp [BackendDict.create, BackendDict.disconnect, h]

/-- Claim C9 counterexample.  The claim says the HTTP front end returns
404 for a GET on an absent key, 201 for a successful POST, and 200 for
every DELETE.  The DynamoDB draft returns 403 (not 404) for a GET on
the absent key "k" of the empty table, 200 (not 201) for the
successful POST of ("k", "v"), and 400 (not 200) for a DELETE of the
empty key. -/
theorem c9_counterexample :
    ((KvPair.get { items := [] } "k").2 = 403) ∧
    ((KvPair.get { items := [] } "k").2 ≠ 404) ∧
    ((KvPair.post { items := [] } "k" "v").2 = 200) ∧
    ((KvPair.post { items := [] } "k" "v").2 ≠ 201) ∧
    ((KvPair.delete { items := [] } "").2 = 400) ∧
    ((KvPair.delete { items := [] } "").2 ≠ 200) := by
  decide

/-- Claim C9 as amended.  The DynamoDB draft maps results to status
codes as follows: GET gives 403 on an absent key and 200 on success;
POST gives 403 on a duplicate key and 200 on success; PUT gives 403 on
an absent key and 200 on success; DELETE gives 200 for every non-empty
key, present or not, and 400 for the empty key. -/
theorem c9_amended :
    (∀ (t : List (Key × Option Value)) (k : Key),
       alookup t k = none → KvPair.get { items := t } k = (none, 403)) ∧
    (∀ (t : List (Key × Option Value)) (k : Key) (v : Value),
       alookup t k = some (some v) →
         KvPair.get { items := t } k = (some v, 200)) ∧
    (∀ (t : List (Key × Option Value)) (k : Key) (w : Option Value)
       (v2 : Value), alookup t k = some w →
         (KvPair.post { items := t } k v2).2 = 403) ∧
    (∀ (t : List (Key × Option Value)) (k : Key) (v2 : Value),
       alookup t k = none → (KvPair.post { items := t } k v2).2 = 200) ∧
    (∀ (t : List (Key × Option Value)) (k : Key) (v2 : Value),
       alookup t k = none → (KvPair.put { items := t } k v2).2 = 403) ∧
    (∀ (t : List (Key × Option Value)) (k : Key) (v v2 : Value),
       alookup t k = some (some v) →
         (KvPair.put { items := t } k v2).2 = 200) ∧
    (∀ (t : List (Key × Option Value)) (k : Key),
       0 < k.length → (KvPair.delete { items := t } k).2 = 200) ∧
    (∀ (t : List (Key × Option Value)),
       (KvPair.delete { items := t } "").2 = 400) := by
  refine ⟨?_, ?_, ?_, ?_, ?_, ?_, ?_, ?_⟩
  · intro t k h; simp [KvPair.get, h]
  · intro t k v h; simp [KvPair.get, h]
  · intro t k w v2 h; simp [KvPair.post, h]
  · intro t k v2 h; simp [KvPair.post, h]
  · intro t k v2 h; simp [KvPair.put, h]
  · intro t k v v2 h; simp [KvPair.put, h]
  · intro t k h; simp [KvPair.delete, h]
  · intro t; simp [KvPair.delete]

/-- Claim C9 witness: each arm of the amended mapping evaluated at a
concrete table, key and value. -/
theorem c9_amended_witness :
    (KvPair.get { items := [] } "k" = (none, 403)) ∧
    (KvPair.get { items := [("k", some "v")] } "k" = (some "v", 200)) ∧
    ((KvPair.post { items := [("k", some "v")] } "k" "w").2 = 403) ∧
    ((KvPair.post { items := [] } "k" "w").2 = 200) ∧
    ((KvPair.put { items := [] } "k" "w").2 = 403) ∧
    ((KvPair.put { items := [("k", some "v")] } "k" "w").2 = 200) ∧
    ((KvPair.delete { items := [] } "k").2 = 200) ∧
    ((KvPair.delete { items := [] } "").2 = 400) :=
  ⟨c9_amended.1 [] "k" rfl,
   c9_amended.2.1 [("k", some "v")] "k" "v" rfl,
   c9_amended.2.2.1 [("k", some "v")] "k" (some "v") "w" rfl,
   c9_amended.2.2.2.1 [] "k" "w" rfl,
   c9_amended.2.2.2.2.1 [] "k" "w" rfl,
   c9_amended.2.2.2.2.2.1 [("k", some "v")] "k" "v" "w" rfl,
   c9_amended.2.2.2.2.2.2.1 [] "k" (by decide),
   c9_amended.2.2.2.2.2.2.2 []⟩

/-- Claim C10.  In the DynamoDB draft a key whose stored value is None
is treated as absent: get on such a key returns (None, 403), exactly
what get returns on a key that is missing altogether, and put on such
a key returns 403 and leaves the table unchanged instead of updating
it. -/
theorem c10_none_value_treated_as_absent (t : List (Key × Option Value))
    (k k2 : Key) (v : Value)
    (hk : alookup t k = some none) (hk2 : alookup t k2 = none) :
    (KvPair.get { items := t } k = (none, 403)) ∧
    (KvPair.get { items := t } k2 = (none, 403)) ∧
    (KvPair.put { items := t } k v = ({ items := t }, 403)) := by
  refine ⟨?_, ?_, ?_⟩
  · simp [KvPair.get, hk]
  · simp [KvPair.get, hk2]
  · simp [KvPair.put, hk]

/-- Claim C10 witness: the table holding "a" with a None value, probed
at the None-valued key "a" and the missing key "b". -/
theorem c10_witness :
    (KvPair.get { items := [("a", none)] } "a" = (none, 403)) ∧
    (KvPair.get { items := [("a", none)] } "b" = (none, 403)) ∧
    (KvPair.put { items := [("a", none)] } "a" "v" =
       ({ items := [("a", none)] }, 403)) :=
  c10_none_value_treated_as_absent [("a", none)] "a" "b" "v" rfl rfl
